import Mathlib

/-!
A shallow embedding of `sdk/python/kfp/compiler/_component_builder.py` and
proofs about it.

Conventions used throughout:
* Python strings are Lean `String`s; Python `is` comparisons between the
  interned short string literals `'python2'` / `'python3'` are modelled as
  string equality (every caller in the module passes those literals).
* Fallible Python code (a `raise`) is modelled with `Except String`, the
  error payload being the exception message from the source.
* A Python `OrderedDict` is an insertion-ordered association list; assignment
  to an existing key keeps its position, assignment to a fresh key appends.
* File writes are modelled by returning the exact strings handed to
  `f.write`; external collaborators (object storage, the cluster job runner)
  are modelled by an outcome parameter and an event trace.
-/

namespace ComponentBuilder

/-- Python `s * n` for a string and a (possibly negative) integer:
the empty string when `n <= 0`. -/
def strRepeat (s : String) (n : Int) : String :=
  match n with
  | Int.ofNat m => String.join (List.replicate m s)
  | Int.negSucc _ => ""

/-- Python `s.rstrip(',')`: removes every trailing comma. -/
def pyRstripComma (s : String) : String :=
  String.mk ((s.toList.reverse.dropWhile (fun c => c == ',')).reverse)

/-! ## VersionedDependency (source lines 27-67) -/

/-- Structure `VersionedDependency`: a package name with an optional minimum and
maximum version (source lines 27-38). -/
structure VersionedDependency where
  name : String
  minVersion : Option String
  maxVersion : Option String
deriving DecidableEq, Repr

/-- Constructor `VersionedDependency.__init__` (source lines 29-38): if a single exact
`version` is given, both the minimum and the maximum are set to it,
otherwise the explicit `min_version` / `max_version` are taken. -/
def VersionedDependency.init (nm : String) (version minVersion maxVersion : Option String) :
    VersionedDependency :=
  match version with
  | some v => ⟨nm, some v, some v⟩
  | none => ⟨nm, minVersion, maxVersion⟩

/-- Method `has_min_version` (source line 52): `self._min_version != None`. -/
def VersionedDependency.hasMinVersion (v : VersionedDependency) : Bool :=
  v.minVersion.isSome

/-- Method `has_max_version` (source line 63): `self._max_version != None`. -/
def VersionedDependency.hasMaxVersion (v : VersionedDependency) : Bool :=
  v.maxVersion.isSome

/-! ## DependencyHelper (source lines 69-102)

`self._dependency[self._PYTHON_PACKAGE]` is an `OrderedDict` mapping a
package name to its `VersionedDependency`; we model it as an
insertion-ordered association list. -/

/-- Membership / value lookup in the ordered mapping (`name in dict` and
`dict[name]`). -/
def odLookup (pkgs : List (String × VersionedDependency)) (k : String) :
    Option VersionedDependency :=
  match pkgs with
  | [] => none
  | p :: rest => if p.1 = k then some p.2 else odLookup rest k

/-- Python `OrderedDict` assignment `dict[k] = v`: replaces the value of an existing
key in place (the key keeps its position), appends a fresh key at the end. -/
def odAssign (pkgs : List (String × VersionedDependency)) (k : String)
    (v : VersionedDependency) : List (String × VersionedDependency) :=
  match pkgs with
  | [] => [(k, v)]
  | p :: rest => if p.1 = k then (k, v) :: rest else p :: odAssign rest k v

/-- Method `DependencyHelper.add_python_package` (source lines 79-90): when the name
is already present and `override` is false the call returns without changing
anything; otherwise `self.python_packages[dependency.name] = dependency`. -/
def addPythonPackage (pkgs : List (String × VersionedDependency))
    (dep : VersionedDependency) (override : Bool) : List (String × VersionedDependency) :=
  if (odLookup pkgs dep.name).isSome && !override then pkgs
  else odAssign pkgs dep.name dep

/-- The single line written for one entry by `generate_pip_requirements`
(source lines 96-102): `name + version_str.rstrip(',') + '\n'` where
`version_str` accumulates `' >= min,'` and `' <= max,'`. -/
def requirementLine (nm : String) (v : VersionedDependency) : String :=
  let versionStr :=
    (if v.hasMinVersion then " >= " ++ v.minVersion.getD "" ++ "," else "")
      ++ (if v.hasMaxVersion then " <= " ++ v.maxVersion.getD "" ++ "," else "")
  nm ++ pyRstripComma versionStr ++ "\n"

/-- Method `DependencyHelper.generate_pip_requirements` (source lines 92-102): the
full content written to the target file, one `f.write` per entry, in the
order the packages were added. -/
def generatePipRequirements (pkgs : List (String × VersionedDependency)) : String :=
  String.join (pkgs.map (fun p => requirementLine p.1 p.2))

/-! ## Dockerfile generation (source lines 116-144) -/

def aptLinePy3 : String :=
  "RUN apt-get update -y && apt-get install --no-install-recommends -y -q python3 python3-pip python3-setuptools\n"

def aptLinePy2 : String :=
  "RUN apt-get update -y && apt-get install --no-install-recommends -y -q python python-pip python-setuptools\n"

def pipLinePy3 : String := "RUN pip3 install -r /ml/requirements.txt\n"

def pipLinePy2 : String := "RUN pip install -r /ml/requirements.txt\n"

def entryLinePy3 : String := "ENTRYPOINT [\"python3\", \"-u\", \"/ml/main.py\"]"

def entryLinePy2 : String := "ENTRYPOINT [\"python\", \"-u\", \"/ml/main.py\"]"

/-- Function `_generate_dockerfile` (source lines 116-144): the list of strings handed
to `f.write`, in order (the final `ENTRYPOINT` write carries no newline in
the source, exactly as here).  The guard raises
`ValueError('python_version has to be either python2 or python3')` for any
other variant. -/
def generateDockerfile (baseImage entrypointFilename : String) (pythonVersion : String)
    (requirementFilename : Option String) : Except String (List String) :=
  if ¬ (pythonVersion = "python2" ∨ pythonVersion = "python3") then
    Except.error "python_version has to be either python2 or python3"
  else
    Except.ok
      (["FROM " ++ baseImage ++ "\n",
        if pythonVersion = "python3" then aptLinePy3 else aptLinePy2]
       ++ (match requirementFilename with
           | some r =>
             ["ADD " ++ r ++ " /ml/requirements.txt\n",
              if pythonVersion = "python3" then pipLinePy3 else pipLinePy2]
           | none => [])
       ++ ["ADD " ++ entrypointFilename ++ " /ml/main.py\n",
           if pythonVersion = "python3" then entryLinePy3 else entryLinePy2])

/-! ## CodeGenerator (source lines 146-170)

`self._level` is a Python integer, so the state carries an `Int`; the
`dedent` guard is what keeps it non-negative in every reachable state. -/

structure CGState where
  indentStr : String
  code : List String
  level : Int
deriving DecidableEq, Repr

/-- Constructor `CodeGenerator.__init__` (source lines 148-151). -/
def codeGeneratorInit (ind : String) : CGState := ⟨ind, [], 0⟩

/-- Method `begin` (source lines 153-155): resets the buffer and the level. -/
def CGState.beginP (g : CGState) : CGState := { g with code := [], level := 0 }

/-- Method `indent` (source lines 157-158). -/
def CGState.indentP (g : CGState) : CGState := { g with level := g.level + 1 }

/-- Method `dedent` (source lines 160-163): raises
`Exception('CodeGenerator dedent error')` at level zero, otherwise
decrements. -/
def CGState.dedentP (g : CGState) : Except String CGState :=
  if g.level = 0 then Except.error "CodeGenerator dedent error"
  else Except.ok { g with level := g.level - 1 }

/-- Method `writeline` (source lines 165-166): appends
`self._indentation * self._level + line`. -/
def CGState.writelineP (g : CGState) (line : String) : CGState :=
  { g with code := g.code ++ [strRepeat g.indentStr g.level ++ line] }

/-- Method `end` (source lines 168-170): joins the buffered lines with `'\n'` and
appends one trailing `'\n'`. -/
def CGState.endCode (g : CGState) : String :=
  String.intercalate "\n" g.code ++ "\n"

/-- Writing a list of lines one after the other (a `for` loop of
`writeline` calls). -/
def CGState.writeAll (g : CGState) (ls : List String) : CGState :=
  ls.foldl CGState.writelineP g

/-- The three `CodeGenerator` operations a client can interleave. -/
inductive CGOp where
  | indentOp : CGOp
  | dedentOp : CGOp
  | writeOp : String → CGOp
deriving DecidableEq, Repr

/-- One client call on the generator. -/
def CGState.runOp (g : CGState) : CGOp → Except String CGState
  | CGOp.indentOp => Except.ok g.indentP
  | CGOp.dedentOp => g.dedentP
  | CGOp.writeOp s => Except.ok (g.writelineP s)

/-- A sequence of client calls; the first raised exception aborts the run. -/
def CGState.runOps (g : CGState) : List CGOp → Except String CGState
  | [] => Except.ok g
  | op :: rest =>
    match g.runOp op with
    | Except.error e => Except.error e
    | Except.ok g' => g'.runOps rest

/-! ## Python type values

The synthesizer inspects annotation values: the four supported scalar type
objects, a `NamedTuple` class (detected through `hasattr(_, '_fields')`,
carrying `_fields` / `_field_types`), or any other type object (detected
only through its `__name__`). -/

inductive PyTy where
  | intTy : PyTy
  | floatTy : PyTy
  | strTy : PyTy
  | boolTy : PyTy
  | namedTupleTy : String → List (String × PyTy) → PyTy
  | otherTy : String → PyTy

/-- Python `type.__name__`. -/
def PyTy.pyName : PyTy → String
  | PyTy.intTy => "int"
  | PyTy.floatTy => "float"
  | PyTy.strTy => "str"
  | PyTy.boolTy => "bool"
  | PyTy.namedTupleTy nm _ => nm
  | PyTy.otherTy nm => nm

/-- Python `t in [int, float, str, bool]`. -/
def PyTy.isScalar : PyTy → Bool
  | PyTy.intTy => true
  | PyTy.floatTy => true
  | PyTy.strTy => true
  | PyTy.boolTy => true
  | _ => false

/-- Python `hasattr(t, '_fields')`. -/
def PyTy.hasFields : PyTy → Bool
  | PyTy.namedTupleTy _ _ => true
  | _ => false

/-- A Python function value as the module inspects it: `__name__`, the
positional parameter names (`fullargspec[0]`), the parameter annotations
(`fullargspec[6]` minus the `'return'` key, in dict order), the optional
return annotation, the source lines from `inspect.getsource` split on
`'\n'`, and the optional decorator-attached attributes probed with
`getattr`. -/
structure PyFunc where
  name : String
  args : List String
  annots : List (String × PyTy)
  retAnn : Option PyTy
  srcLines : List String
  humanName : Option String
  humanDesc : Option String
  docString : Option String
  baseImageAttr : Option String
  componentFileAttr : Option String

/-- Source `output_is_named_tuple = hasattr(output, '_fields')` (source line 187),
where `output` is `None` when there is no return annotation. -/
def retIsNamedTuple (r : Option PyTy) : Bool :=
  match r with
  | some t => t.hasFields
  | none => false

/-- The condition of the first return-type check (source lines 194-195):
`'return' in annotations and annotations['return'] not in [int, float, str,
bool] and not output_is_named_tuple`. -/
def scalarCheckFails (r : Option PyTy) : Bool :=
  match r with
  | some t => !t.isScalar && !t.hasFields
  | none => false

/-- The condition of the named-tuple field check (source lines 197-201):
some field's declared type is outside the four scalars.  (Python named
tuples cannot carry duplicate field names, so iterating the `_fields` /
`_field_types` pairs is the same as the source's per-name lookup.) -/
def fieldCheckFails : Option PyTy → Bool
  | some (PyTy.namedTupleTy _ fs) => fs.any (fun p => !p.2.isScalar)
  | _ => false

/-- Expression `len(annotations['return']._fields)` (source line 251). -/
def retFieldsLen : Option PyTy → Nat
  | some (PyTy.namedTupleTy _ fs) => fs.length
  | _ => 0

/-- The spec's notion of an unsupported return annotation: present, not one
of the four scalar types, and not a named tuple all of whose field types
are scalars.  Equivalent to one of the two source checks firing (lines
194-201). -/
def unsupportedRet : Option PyTy → Bool
  | none => false
  | some t =>
    if t.isScalar then false
    else
      match t with
      | PyTy.namedTupleTy _ fs => fs.any (fun p => !p.2.isScalar)
      | _ => true

/-- Access `inputs[input_arg]`: dictionary access raises a `KeyError` when the
argument carries no annotation. -/
def lookupAnn (annots : List (String × PyTy)) (a : String) : Except String PyTy :=
  match annots.lookup a with
  | some t => Except.ok t
  | none => Except.error ("KeyError: " ++ a)

/-- The annotation of `a`, with an arbitrary default for the impossible
missing case (used only under the hypothesis that every argument is
annotated). -/
def annGetD (annots : List (String × PyTy)) (a : String) : PyTy :=
  (annots.lookup a).getD PyTy.strTy

/-! ## Entrypoint synthesis (`_func_to_entrypoint`, source lines 172-274) -/

/-- The indentation-detection regex `re.search(r'\n([ \t]+)[\w]+', src)`
matches a word character, i.e. an alphanumeric character or `'_'`. -/
def isWordChar (c : Char) : Bool := c.isAlphanum || c == '_'

/-- Whether a single line matches `^([ \t]+)[\w]+` and the captured
whitespace run if so. -/
def lineIndentMatch (l : String) : Option String :=
  let cs := l.toList
  let ws := cs.takeWhile (fun c => c == ' ' || c == '\t')
  if ws.length = 0 then none
  else
    match cs.drop ws.length with
    | c :: _ => if isWordChar c then some (String.mk ws) else none
    | [] => none

/-- Scan the lines after the first for the first indentation match. -/
def detectIndentAux : List String → String
  | [] => "\t"
  | l :: rest =>
    match lineIndentMatch l with
    | some s => s
    | none => detectIndentAux rest

/-- Source `indentation = match.group(1) if match else '\t'` (source lines
207-209): the regex anchors each candidate at a `'\n'`, so only lines after
the first can match. -/
def detectIndent (srcLines : List String) : String :=
  match srcLines with
  | [] => "\t"
  | _ :: rest => detectIndentAux rest

/-- The wrapper signature (source lines 215-219): `def wrapper_<name>(`
followed by each parameter and a comma, then `_output_files` for a named
tuple or `_output_file` otherwise. -/
def funcSignature (funcName : String) (args : List String) (nt : Bool) : String :=
  let s := "def wrapper_" ++ funcName ++ "(" ++ String.join (args.map (fun a => a ++ ","))
  (if nt then s ++ "_output_files" else s ++ "_output_file") ++ "):"

/-- The call line (source lines 224-230): `'output = <name>('`, with every
occurrence of `'output'` replaced by `'outputs'` for a named tuple (the
replacement runs before the arguments are appended), then one
`<type>(<arg>),` per parameter, a final `rstrip(',')` and `')'`. -/
def callComponentLine (funcName : String) (nt : Bool) (callArgs : List String) : String :=
  let base := "output = " ++ funcName ++ "("
  let base := if nt then String.replace base "output" "outputs" else base
  pyRstripComma (base ++ String.join callArgs) ++ ")"

/-- The wrapper codegen pass (source lines 213-242), with the call line and
the already-looked-up per-argument pieces passed in.  `begin()` on a fresh
generator equals the fresh generator. -/
def wrapperCG (funcName : String) (args : List String) (nt : Bool)
    (ind callLine : String) : CGState :=
  let g := (codeGeneratorInit ind).beginP
  let g := g.writelineP (funcSignature funcName args nt)
  let g := g.indentP
  let g := g.writelineP callLine
  let g := g.writelineP "import os"
  let g := if nt then
      (g.writelineP "for _output_file, output in zip(_output_files, outputs):").indentP
    else g
  let g := g.writelineP "os.makedirs(os.path.dirname(_output_file))"
  let g := g.writelineP "with open(_output_file, \"w\") as data:"
  let g := g.indentP
  g.writelineP "data.write(str(output))"

def parserHeaderLine : String :=
  "parser = argparse.ArgumentParser(description=\"Parsing arguments\")"

/-- One input `add_argument` line (source line 249). -/
def inputArgLine (a : String) (t : PyTy) : String :=
  "parser.add_argument(\"" ++ a ++ "\", type=" ++ PyTy.pyName t ++ ")"

/-- The named-tuple output declaration (source line 251): one positional
argument consuming exactly `k` command-line values. -/
def nargsOutputLine (k : Nat) : String :=
  "parser.add_argument(\"_output_files\", type=str, nargs=" ++ toString k ++ ")"

/-- The single-output declaration (source line 253). -/
def singleOutputLine : String :=
  "parser.add_argument(\"_output_file\", type=str)"

/-- The CLI codegen pass (source lines 245-258), with the already-looked-up
input lines and the output line passed in; `codegen.begin()` resets the
reused generator to the fresh state. -/
def cliCG (funcName : String) (argLines : List String) (outLine ind : String) : CGState :=
  let g := (codeGeneratorInit ind).beginP
  let g := g.writelineP "import argparse"
  let g := g.writelineP parserHeaderLine
  let g := g.writeAll argLines
  let g := g.writelineP outLine
  let g := g.writelineP "args = vars(parser.parse_args())"
  let g := g.writelineP ""
  let g := g.writelineP "if __name__ == \"__main__\":"
  let g := g.indentP
  g.writelineP ("wrapper_" ++ funcName ++ "(**args)")

/-- The python2 signature rewrite (source line 268). -/
def python2Signature (f : PyFunc) : String :=
  "def " ++ f.name ++ "(" ++ String.intercalate ", " f.args ++ "):"

def outputTypeErr : String :=
  "Output type not supported and supported types are [int, float, str, bool]"

/-- The tail of `_func_to_entrypoint` after validation and annotation
lookups (source lines 206-274): codegen for the wrapper and the CLI block,
decorator stripping (`start_line_num` counts the lines before the first one
starting with `'def '`; for python2 that line is rewritten without
annotations, an out-of-range index raising an `IndexError`), and the final
concatenation. -/
def entrypointAssemble (f : PyFunc) (pythonVersion : String)
    (callArgs argLines : List String) : Except String String :=
  let nt := retIsNamedTuple f.retAnn
  let ind := detectIndent f.srcLines
  let wrapperCode :=
    (wrapperCG f.name f.args nt ind (callComponentLine f.name nt callArgs)).endCode
  let outLine := if nt then nargsOutputLine (retFieldsLen f.retAnn) else singleOutputLine
  let cliCode := (cliCG f.name argLines outLine ind).endCode
  let startIdx := (f.srcLines.takeWhile (fun l => ¬ l.startsWith "def ")).length
  match (if pythonVersion = "python2" then
          (if startIdx < f.srcLines.length then
            Except.ok (f.srcLines.set startIdx (python2Signature f))
          else Except.error "IndexError: list assignment index out of range")
        else Except.ok f.srcLines : Except String (List String)) with
  | Except.error e => Except.error e
  | Except.ok lines2 =>
    let dd := String.intercalate "\n" (lines2.drop startIdx)
    let dd2 := if nt then "from typing import NamedTuple\n" ++ dd else dd
    Except.ok (dd2 ++ "\n" ++ wrapperCode ++ "\n" ++ cliCode)

/-- Function `_func_to_entrypoint` (source lines 172-274).  Validation order follows
the source: the runtime-variant guard, the parameter-annotation count check
(line 192), the return-type scalar check (line 194), the named-tuple field
check (line 197); only then code generation, whose per-argument dictionary
accesses can still raise a `KeyError`. -/
def funcToEntrypoint (f : PyFunc) (pythonVersion : String) : Except String String :=
  if ¬ (pythonVersion = "python2" ∨ pythonVersion = "python3") then
    Except.error "python_version has to be either python2 or python3"
  else if f.args.length ≠ f.annots.length then
    Except.error "Some input arguments do not contain annotations."
  else if scalarCheckFails f.retAnn then
    Except.error outputTypeErr
  else if fieldCheckFails f.retAnn then
    Except.error outputTypeErr
  else
    match f.args.mapM (fun a =>
        (lookupAnn f.annots a).map (fun t => PyTy.pyName t ++ "(" ++ a ++ "),")) with
    | Except.error e => Except.error e
    | Except.ok callArgs =>
      match f.args.mapM (fun a => (lookupAnn f.annots a).map (fun t => inputArgLine a t)) with
      | Except.error e => Except.error e
      | Except.ok argLines => entrypointAssemble f pythonVersion callArgs argLines

/-- Denotation of the serialization block emitted for a named-tuple output
(source lines 236-241): the generated wrapper runs
`for _output_file, output in zip(_output_files, outputs):` and writes
`str(output)` to `_output_file`, so the files written are the zip of the
output-file paths with the returned tuple's values (which sit in field
order). -/
def namedTupleWrites (outputFiles outputs : List String) : List (String × String) :=
  List.zip outputFiles outputs

/-! ## Remote build orchestration (`ImageBuilder._build_image`, source lines
358-373)

`GCSHelper.upload_gcs_file`, `K8sHelper.run_job` and
`GCSHelper.remove_gcs_blob` are external collaborators; each attempted call
is recorded as an event, and the job runner's outcome is a parameter.  The
source body is straight-line code with no `try`/`finally`: the cleanup call
on line 373 runs only when `run_job` returns normally. -/

inductive SideEffect where
  | uploadBlob : String → String → SideEffect
  | runKanikoJob : SideEffect
  | removeBlob : String → SideEffect
  | writeComponentFile : String → SideEffect
deriving DecidableEq, Repr

/-- Method `_build_image(local_tarball_path, namespace, timeout)` (source lines
358-373): upload the tarball, submit the kaniko job and block on it, and —
only after `run_job` returns — remove the staged blob.  Returns the trace of
attempted collaborator calls together with the propagated outcome. -/
def buildImageSteps (localTarballPath gcsPath : String)
    (uploadOutcome jobOutcome : Except String Unit) :
    List SideEffect × Except String Unit :=
  match uploadOutcome with
  | Except.error e => ([SideEffect.uploadBlob localTarballPath gcsPath], Except.error e)
  | Except.ok _ =>
    match jobOutcome with
    | Except.error e =>
      ([SideEffect.uploadBlob localTarballPath gcsPath, SideEffect.runKanikoJob],
        Except.error e)
    | Except.ok _ =>
      ([SideEffect.uploadBlob localTarballPath gcsPath, SideEffect.runKanikoJob,
        SideEffect.removeBlob gcsPath], Except.ok ())

/-! ## Component descriptor emission (`_generate_pythonop`, source lines
431-475) -/

structure IOSpecM where
  ioName : String
  ioType : String
deriving DecidableEq, Repr

inductive PlaceholderM where
  | inputValue : String → PlaceholderM
  | outputPath : String → PlaceholderM
deriving DecidableEq, Repr

structure ComponentSpecM where
  csName : String
  csDescription : Option String
  csInputs : List IOSpecM
  csOutputs : List IOSpecM
  csImage : String
  csArgs : List PlaceholderM
deriving DecidableEq, Repr

/-- Modelled from the spec: `_python_function_name_to_component_name`, the
external naming utility from `kfp.components._python_op` (not under `src/`)
that turns a function name into a human-readable component name.  No claim
depends on its exact output. -/
def pythonFunctionNameToComponentName (s : String) : String :=
  (String.replace s "_" " ").capitalize

/-- Source `output_names` (source lines 450-452): the named-tuple field names when
the return annotation has `_fields`, otherwise the single name
`'output'`. -/
def outputNamesOf (f : PyFunc) : List String :=
  match f.retAnn with
  | some (PyTy.namedTupleTy _ fs) => fs.map Prod.fst
  | _ => ["output"]

/-- Function `_generate_pythonop` (source lines 431-475): derives the component
descriptor (name and description from the decorator attributes or the
function, one `'str'`-typed input per parameter, one `'str'`-typed output
per output name, an input-value placeholder per input followed by an
output-path placeholder per output), optionally writes it to a file, and
returns the spec handed to the external task factory.  (Python's `x or y`
also falls through on an empty string; the attributes are modelled as
`Option`s, absent meaning `None`.) -/
def generatePythonop (f : PyFunc) (targetImage : String)
    (targetComponentFile : Option String) : List SideEffect × ComponentSpecM :=
  let componentName :=
    match f.humanName with
    | some n => n
    | none => pythonFunctionNameToComponentName f.name
  let componentDescription :=
    match f.humanDesc with
    | some d => some d
    | none => match f.docString with
      | some doc => some doc.trim
      | none => none
  let spec : ComponentSpecM :=
    { csName := componentName
      csDescription := componentDescription
      csInputs := f.args.map (fun a => ⟨a, "str"⟩)
      csOutputs := (outputNamesOf f).map (fun o => ⟨o, "str"⟩)
      csImage := targetImage
      csArgs := f.args.map PlaceholderM.inputValue
        ++ (outputNamesOf f).map PlaceholderM.outputPath }
  let tcf :=
    match targetComponentFile with
    | some p => some p
    | none => f.componentFileAttr
  let events :=
    match tcf with
    | some p => [SideEffect.writeComponentFile p]
    | none => []
  (events, spec)

/-- Python `os.path.join` for the two components the module joins. -/
def pyPathJoin (a b : String) : String :=
  if b.startsWith "/" then b
  else if a = "" ∨ a.endsWith "/" then a ++ b
  else a ++ "/" ++ b

/-- Which side effects belong to the remote build (as opposed to descriptor
serialization). -/
def isBuildEffect : SideEffect → Bool
  | SideEffect.writeComponentFile _ => false
  | _ => true

/-- Function `build_python_component` (source lines 477-524).  `tarballName` stands
for the generated `str(uuid.uuid4()) + '.tar.gz'`; the upload and job
outcomes stand for the external collaborators.  The order of the checks
follows the source: `component_func`, `target_image`, `python_version`;
then, only under `build_image`, `staging_gcs_path`, the base-image fallback
to the `_component_base_image` attribute, the `ImageBuilder` constructor's
`gs://` prefix check, and the build itself (entrypoint synthesis, packaging
— delegated file writes elided — and `_build_image`).  On every successful
path the function ends by returning the task factory built from
`_generate_pythonop`'s component spec. -/
def buildPythonComponent (componentFunc : Option PyFunc) (targetImage : Option String)
    (baseImage : Option String) (stagingGcsPath : Option String) (buildImageFlag : Bool)
    (pythonVersion : String) (targetComponentFile : Option String)
    (tarballName : String) (uploadOutcome jobOutcome : Except String Unit) :
    Except String (List SideEffect × ComponentSpecM) :=
  match componentFunc with
  | none => Except.error "component_func must not be None"
  | some f =>
    match targetImage with
    | none => Except.error "target_image must not be None"
    | some img =>
      if ¬ (pythonVersion = "python2" ∨ pythonVersion = "python3") then
        Except.error "python_version has to be either python2 or python3"
      else if buildImageFlag then
        match stagingGcsPath with
        | none => Except.error "staging_gcs_path must not be None"
        | some staging =>
          match (match baseImage with
                 | some b => some b
                 | none => f.baseImageAttr) with
          | none => Except.error "base_image must not be None"
          | some _base =>
            if ¬ staging.startsWith "gs://" then
              Except.error "ImageBuild __init__ failure."
            else
              match funcToEntrypoint f pythonVersion with
              | Except.error e => Except.error e
              | Except.ok _code =>
                let gcsPath := pyPathJoin staging tarballName
                match buildImageSteps "docker.tmp.tar.gz" gcsPath uploadOutcome jobOutcome with
                | (_, Except.error e) => Except.error e
                | (buildEvents, Except.ok _) =>
                  let (opEvents, spec) := generatePythonop f img targetComponentFile
                  Except.ok (buildEvents ++ opEvents, spec)
      else
        Except.ok (generatePythonop f img targetComponentFile)

/-- A function value with no decorator-attached attributes (as produced by
a plain `def`). -/
def mkPyFunc (nm : String) (args : List String) (annots : List (String × PyTy))
    (retAnn : Option PyTy) (srcLines : List String) : PyFunc :=
  ⟨nm, args, annots, retAnn, srcLines, none, none, none, none, none⟩

/-- Python `NamedTuple('MyOutput', [('quotient', str), ('remainder', str)])`. -/
def exampleNTFields : List (String × PyTy) :=
  [("quotient", PyTy.strTy), ("remainder", PyTy.strTy)]

/-- A concrete two-parameter function returning that named tuple. -/
def exampleNTFunc : PyFunc :=
  mkPyFunc "divmod_str" ["a", "b"] [("a", PyTy.intTy), ("b", PyTy.intTy)]
    (some (PyTy.namedTupleTy "MyOutput" exampleNTFields))
    ["@python_component", "def divmod_str(a: int, b: int):",
     "    return MyOutput(str(a // b), str(a % b))"]

/-- A concrete function with one parameter left unannotated. -/
def exampleMissingAnnFunc : PyFunc :=
  mkPyFunc "add" ["a", "b"] [("a", PyTy.intTy)] none
    ["@python_component", "def add(a: int, b):", "    return a + b"]

/-- A concrete function whose return annotation is an unsupported type. -/
def exampleBadRetFunc : PyFunc :=
  mkPyFunc "mk" ["a"] [("a", PyTy.intTy)] (some (PyTy.otherTy "dict"))
    ["@python_component", "def mk(a: int) -> dict:", "    return dict(a=a)"]

/-- A concrete function violating both validation rules at once. -/
def exampleBothBadFunc : PyFunc :=
  mkPyFunc "both" ["a", "b"] [("a", PyTy.intTy)] (some (PyTy.otherTy "dict"))
    ["@python_component", "def both(a: int, b) -> dict:", "    return dict(a=a)"]

/-- A concrete function with no return annotation at all. -/
def exampleNoRetFunc : PyFunc :=
  mkPyFunc "emit" ["x"] [("x", PyTy.floatTy)] none
    ["@python_component", "def emit(x: float):", "    return x * 2"]

/-! ## Helper lemmas -/

theorem str_empty_append (s : String) : "" ++ s = s := rfl

theorem strRepeat_zero (s : String) : strRepeat s 0 = "" := rfl

theorem strRepeat_one (s : String) : strRepeat s 1 = s := rfl

theorem writeAll_cons (g : CGState) (x : String) (xs : List String) :
    g.writeAll (x :: xs) = (g.writelineP x).writeAll xs := rfl

theorem writeAll_eq : ∀ (ls : List String) (g : CGState),
    g.writeAll ls
      = { g with code := g.code ++ ls.map (fun s => strRepeat g.indentStr g.level ++ s) }
  | [], g => by simp [CGState.writeAll]
  | x :: xs, g => by
    rw [writeAll_cons, writeAll_eq xs]
    simp [CGState.writelineP]

theorem mapM_lookup_ok {α : Type} (annots : List (String × PyTy)) (mk : String → PyTy → α) :
    ∀ (args : List String), (∀ a ∈ args, (annots.lookup a).isSome = true) →
      args.mapM (fun a => (lookupAnn annots a).map (mk a))
        = Except.ok (args.map (fun a => mk a (annGetD annots a)))
  | [], _ => rfl
  | a :: rest, h => by
    have ha : (annots.lookup a).isSome = true := h a (by simp)
    obtain ⟨t, ht⟩ := Option.isSome_iff_exists.mp ha
    have hrest := mapM_lookup_ok annots mk rest (fun x hx => h x (by simp [hx]))
    rw [List.mapM_cons, hrest]
    simp [lookupAnn, ht, annGetD]
    rfl

theorem odAssign_lookup_self : ∀ (pkgs : List (String × VersionedDependency)) (k : String)
    (v : VersionedDependency), odLookup (odAssign pkgs k v) k = some v
  | [], k, v => by simp [odAssign, odLookup]
  | p :: rest, k, v => by
    by_cases h : p.1 = k
    · simp [odAssign, odLookup, h]
    · simp [odAssign, odLookup, h, odAssign_lookup_self rest k v]

theorem odAssign_lookup_other : ∀ (pkgs : List (String × VersionedDependency)) (k k' : String)
    (v : VersionedDependency), k' ≠ k → odLookup (odAssign pkgs k v) k' = odLookup pkgs k'
  | [], k, k', v, hne => by
    simp [odAssign, odLookup, Ne.symm hne]
  | p :: rest, k, k', v, hne => by
    by_cases h : p.1 = k
    · simp [odAssign, odLookup, h, Ne.symm hne]
    · simp [odAssign, odLookup, h, odAssign_lookup_other rest k k' v hne]

theorem odAssign_absent : ∀ (pkgs : List (String × VersionedDependency)) (k : String)
    (v : VersionedDependency), odLookup pkgs k = none → odAssign pkgs k v = pkgs ++ [(k, v)]
  | [], k, v, _ => rfl
  | p :: rest, k, v, h => by
    by_cases hp : p.1 = k
    · simp [odLookup, hp] at h
    · simp [odLookup, hp] at h
      simp [odAssign, hp, odAssign_absent rest k v h]

theorem odAssign_keys_present : ∀ (pkgs : List (String × VersionedDependency)) (k : String)
    (v : VersionedDependency), (odLookup pkgs k).isSome = true →
      (odAssign pkgs k v).map Prod.fst = pkgs.map Prod.fst
  | [], k, v, h => by simp [odLookup] at h
  | p :: rest, k, v, h => by
    by_cases hp : p.1 = k
    · simp [odAssign, hp]
    · simp [odLookup, hp] at h
      simp [odAssign, hp, odAssign_keys_present rest k v h]

theorem runOps_level_nonneg : ∀ (ops : List CGOp) (g g' : CGState),
    0 ≤ g.level → g.runOps ops = Except.ok g' → 0 ≤ g'.level
  | [], g, g', h, he => by
    simp [CGState.runOps] at he
    exact he ▸ h
  | op :: rest, g, g', h, he => by
    cases op with
    | indentOp =>
      simp only [CGState.runOps, CGState.runOp] at he
      exact runOps_level_nonneg rest _ g' (by simp [CGState.indentP]; omega) he
    | dedentOp =>
      simp only [CGState.runOps, CGState.runOp, CGState.dedentP] at he
      by_cases hz : g.level = 0
      · simp [hz] at he
      · simp only [hz, if_false, if_neg hz] at he
        exact runOps_level_nonneg rest _ g' (by simp; omega) he
    | writeOp s =>
      simp only [CGState.runOps, CGState.runOp] at he
      exact runOps_level_nonneg rest _ g' (by simp [CGState.writelineP]; omega) he

theorem mapM_callArgs_ok (annots : List (String × PyTy)) (args : List String)
    (hann : ∀ a ∈ args, (annots.lookup a).isSome = true) :
    args.mapM (fun a => (lookupAnn annots a).map (fun t => PyTy.pyName t ++ "(" ++ a ++ "),"))
      = Except.ok (args.map (fun a => PyTy.pyName (annGetD annots a) ++ "(" ++ a ++ "),")) :=
  mapM_lookup_ok annots (fun a t => PyTy.pyName t ++ "(" ++ a ++ "),") args hann

theorem mapM_argLines_ok (annots : List (String × PyTy)) (args : List String)
    (hann : ∀ a ∈ args, (annots.lookup a).isSome = true) :
    args.mapM (fun a => (lookupAnn annots a).map (fun t => inputArgLine a t))
      = Except.ok (args.map (fun a => inputArgLine a (annGetD annots a))) :=
  mapM_lookup_ok annots (fun a t => inputArgLine a t) args hann

theorem cliCG_code (funcName : String) (argLines : List String) (outLine ind : String) :
    (cliCG funcName argLines outLine ind).code
      = ["import argparse", parserHeaderLine] ++ argLines
        ++ [outLine, "args = vars(parser.parse_args())", "",
            "if __name__ == \"__main__\":",
            ind ++ "wrapper_" ++ funcName ++ "(**args)"] := by
  simp [cliCG, codeGeneratorInit, CGState.beginP, CGState.writelineP, CGState.indentP,
    writeAll_eq, strRepeat_zero, strRepeat_one, str_empty_append, String.append_assoc]

theorem wrapperCG_code_nt (funcName : String) (args : List String) (ind callLine : String) :
    (wrapperCG funcName args true ind callLine).code
      = [funcSignature funcName args true,
         strRepeat ind 1 ++ callLine,
         strRepeat ind 1 ++ "import os",
         strRepeat ind 1 ++ "for _output_file, output in zip(_output_files, outputs):",
         strRepeat ind 2 ++ "os.makedirs(os.path.dirname(_output_file))",
         strRepeat ind 2 ++ "with open(_output_file, \"w\") as data:",
         strRepeat ind 3 ++ "data.write(str(output))"] := by
  simp [wrapperCG, codeGeneratorInit, CGState.beginP, CGState.writelineP, CGState.indentP,
    strRepeat_zero, str_empty_append]

theorem funcToEntrypoint_ok (f : PyFunc) (pv : String)
    (hpv : pv = "python2" ∨ pv = "python3")
    (hcount : f.args.length = f.annots.length)
    (hscal : scalarCheckFails f.retAnn = false)
    (hfield : fieldCheckFails f.retAnn = false)
    (hann : ∀ a ∈ f.args, (f.annots.lookup a).isSome = true) :
    funcToEntrypoint f pv
      = entrypointAssemble f pv
          (f.args.map (fun a => PyTy.pyName (annGetD f.annots a) ++ "(" ++ a ++ "),"))
          (f.args.map (fun a => inputArgLine a (annGetD f.annots a))) := by
  simp only [funcToEntrypoint]
  rw [if_neg (not_not_intro hpv), if_neg (fun hne => hne hcount),
    if_neg (by simp [hscal]), if_neg (by simp [hfield]),
    mapM_callArgs_ok f.annots f.args hann, mapM_argLines_ok f.annots f.args hann]

/-! ## Claim theorems -/

/-- C1 counterexample: with the upload succeeding and the kaniko job
submission raising (a failure or a timeout), `_build_image` attempts zero
removals of the staged artifact, not exactly one — the cleanup call on
source line 373 sits after `run_job` with no `try`/`finally` around it. -/
theorem buildImageSteps_no_cleanup_on_job_failure :
    ¬ ((buildImageSteps "docker.tmp.tar.gz" "gs://bucket/u.tar.gz" (Except.ok ())
          (Except.error "job failed")).1.count
        (SideEffect.removeBlob "gs://bucket/u.tar.gz") = 1) := by
  decide

/-- C1 (amended): after a successful upload, `_build_image` attempts removal
of the staged artifact exactly once when the job runner returns normally,
and zero times when `run_job` raises — the exception then propagates to the
caller with no cleanup attempted. -/
theorem buildImageSteps_cleanup_only_on_success :
    ∀ (tar gcs e : String),
      buildImageSteps tar gcs (Except.ok ()) (Except.ok ())
        = ([SideEffect.uploadBlob tar gcs, SideEffect.runKanikoJob,
            SideEffect.removeBlob gcs], Except.ok ())
      ∧ buildImageSteps tar gcs (Except.ok ()) (Except.error e)
          = ([SideEffect.uploadBlob tar gcs, SideEffect.runKanikoJob], Except.error e)
      ∧ (buildImageSteps tar gcs (Except.ok ()) (Except.ok ())).1.count
          (SideEffect.removeBlob gcs) = 1
      ∧ (buildImageSteps tar gcs (Except.ok ()) (Except.error e)).1.count
          (SideEffect.removeBlob gcs) = 0 := by
  intro tar gcs e
  refine ⟨rfl, rfl, ?_, ?_⟩
  · simp [buildImageSteps, List.count_cons, List.count_singleton]
  · simp [buildImageSteps, List.count_cons]

/-- C4: rendering the ledger writes one line per entry in insertion order
(appending an entry appends exactly its line, the empty ledger renders
empty); a dependency built from the single exact version `"1.0"` renders as
`name >= 1.0, <= 1.0`, one with only a minimum as `name >= 1.0`, and one
with no versions as just its name. -/
theorem generatePipRequirements_renders :
    ∀ (pkgs : List (String × VersionedDependency)) (p : String × VersionedDependency)
      (nm : String),
      generatePipRequirements (pkgs ++ [p])
        = generatePipRequirements pkgs ++ requirementLine p.1 p.2
      ∧ generatePipRequirements [] = ""
      ∧ requirementLine nm (VersionedDependency.init nm (some "1.0") none none)
          = nm ++ " >= 1.0, <= 1.0" ++ "\n"
      ∧ requirementLine nm (VersionedDependency.init nm none (some "1.0") none)
          = nm ++ " >= 1.0" ++ "\n"
      ∧ requirementLine nm (VersionedDependency.init nm none none none)
          = nm ++ "" ++ "\n" := by
  intro pkgs p nm
  refine ⟨?_, rfl, rfl, rfl, rfl⟩
  simp [generatePipRequirements, String.join, List.foldl_append]

/-- C5: `_generate_dockerfile` raises for any runtime variant other than
`python2` / `python3`, and otherwise writes exactly, in order: the `FROM`
line, the variant-specific apt bootstrap line, the `ADD` + pip install pair
when a requirements file is supplied, the `ADD <entrypoint> /ml/main.py`
line, and the variant's `ENTRYPOINT [..., "-u", "/ml/main.py"]` line. -/
theorem generateDockerfile_spec :
    (∀ (b e pv : String) (r : Option String),
      ¬ (pv = "python2" ∨ pv = "python3") →
        generateDockerfile b e pv r
          = Except.error "python_version has to be either python2 or python3")
    ∧ (∀ b e r : String,
        generateDockerfile b e "python3" (some r)
          = Except.ok ["FROM " ++ b ++ "\n", aptLinePy3,
              "ADD " ++ r ++ " /ml/requirements.txt\n", pipLinePy3,
              "ADD " ++ e ++ " /ml/main.py\n", entryLinePy3])
    ∧ (∀ b e : String,
        generateDockerfile b e "python3" none
          = Except.ok ["FROM " ++ b ++ "\n", aptLinePy3,
              "ADD " ++ e ++ " /ml/main.py\n", entryLinePy3])
    ∧ (∀ b e r : String,
        generateDockerfile b e "python2" (some r)
          = Except.ok ["FROM " ++ b ++ "\n", aptLinePy2,
              "ADD " ++ r ++ " /ml/requirements.txt\n", pipLinePy2,
              "ADD " ++ e ++ " /ml/main.py\n", entryLinePy2])
    ∧ (∀ b e : String,
        generateDockerfile b e "python2" none
          = Except.ok ["FROM " ++ b ++ "\n", aptLinePy2,
              "ADD " ++ e ++ " /ml/main.py\n", entryLinePy2]) :=
  ⟨fun _ _ _ _ h => by simp [generateDockerfile, h],
   fun _ _ _ => rfl, fun _ _ => rfl, fun _ _ _ => rfl, fun _ _ => rfl⟩

/-- C5 witness: the unsupported variant `python4` is rejected with the
source's error message. -/
theorem generateDockerfile_spec_witness :
    generateDockerfile "ubuntu:16.04" "main.py" "python4" none
      = Except.error "python_version has to be either python2 or python3" :=
  generateDockerfile_spec.1 "ubuntu:16.04" "main.py" "python4" none (by decide)

/-- C6: `add_python_package` with `override = true` inserts or replaces the
entry for the dependency's name (an absent name is appended, other entries
keep their values); with `override = false` it leaves the ledger entirely
unchanged when the name already exists, and otherwise behaves like an
insert. -/
theorem addPythonPackage_override_spec :
    ∀ (pkgs : List (String × VersionedDependency)) (dep : VersionedDependency),
      odLookup (addPythonPackage pkgs dep true) dep.name = some dep
      ∧ (∀ k, k ≠ dep.name →
          odLookup (addPythonPackage pkgs dep true) k = odLookup pkgs k)
      ∧ ((odLookup pkgs dep.name).isSome = true → addPythonPackage pkgs dep false = pkgs)
      ∧ (odLookup pkgs dep.name = none →
          ∀ b, addPythonPackage pkgs dep b = pkgs ++ [(dep.name, dep)]) := by
  intro pkgs dep
  refine ⟨?_, ?_, ?_, ?_⟩
  · simp [addPythonPackage, odAssign_lookup_self]
  · intro k hk
    simp [addPythonPackage, odAssign_lookup_other pkgs dep.name k dep hk]
  · intro h
    simp [addPythonPackage, h]
  · intro h b
    simp [addPythonPackage, h, odAssign_absent pkgs dep.name dep h]

/-- C6 witness: on the concrete ledger `[("numpy", >=1.0)]`, a no-override
re-add of `numpy` is a no-op, an override replaces in place, and a fresh
name is appended. -/
theorem addPythonPackage_override_spec_witness :
    odLookup (addPythonPackage [("numpy", ⟨"numpy", some "1.0", none⟩)]
        ⟨"numpy", some "1.2", some "1.4"⟩ true) "numpy" = some ⟨"numpy", some "1.2", some "1.4"⟩
    ∧ addPythonPackage [("numpy", ⟨"numpy", some "1.0", none⟩)]
        ⟨"numpy", some "1.2", some "1.4"⟩ false = [("numpy", ⟨"numpy", some "1.0", none⟩)]
    ∧ addPythonPackage [("numpy", ⟨"numpy", some "1.0", none⟩)]
        ⟨"scipy", none, none⟩ true
        = [("numpy", ⟨"numpy", some "1.0", none⟩), ("scipy", ⟨"scipy", none, none⟩)] :=
  ⟨(addPythonPackage_override_spec [("numpy", ⟨"numpy", some "1.0", none⟩)]
      ⟨"numpy", some "1.2", some "1.4"⟩).1,
   (addPythonPackage_override_spec [("numpy", ⟨"numpy", some "1.0", none⟩)]
      ⟨"numpy", some "1.2", some "1.4"⟩).2.2.1 (by decide),
   (addPythonPackage_override_spec [("numpy", ⟨"numpy", some "1.0", none⟩)]
      ⟨"scipy", none, none⟩).2.2.2 (by decide) true⟩

/-- C7: `dedent` at level zero raises `CodeGenerator dedent error` instead
of decrementing; the level stays non-negative across every successful
sequence of indent/dedent/write operations started at a non-negative level
(in particular from the initial level zero); and `writeline` prefixes the
written line with exactly the current level's worth of indentation units. -/
theorem codeGenerator_indent_safety :
    (∀ (ind : String) (code : List String),
      CGState.dedentP ⟨ind, code, 0⟩ = Except.error "CodeGenerator dedent error")
    ∧ (∀ (ops : List CGOp) (g g' : CGState),
        0 ≤ g.level → g.runOps ops = Except.ok g' → 0 ≤ g'.level)
    ∧ (∀ (g : CGState) (s : String),
        g.runOp (CGOp.writeOp s)
          = Except.ok { g with code := g.code ++ [strRepeat g.indentStr g.level ++ s] }) :=
  ⟨fun _ _ => rfl, runOps_level_nonneg, fun _ _ => rfl⟩

/-- C7 witness: a dedent with no matching indent fails on the fresh
generator; a balanced run ends back at level zero; a write at level one is
prefixed by one indentation unit. -/
theorem codeGenerator_indent_safety_witness :
    CGState.dedentP ⟨"\t", [], 0⟩ = Except.error "CodeGenerator dedent error"
    ∧ 0 ≤ (⟨"\t", [], 2⟩ : CGState).level
    ∧ CGState.runOp (⟨"\t", [], 1⟩ : CGState) (CGOp.writeOp "x")
        = Except.ok ⟨"\t", ["\tx"], 1⟩ :=
  ⟨codeGenerator_indent_safety.1 "\t" [],
   codeGenerator_indent_safety.2.1 [CGOp.indentOp, CGOp.writeOp "a", CGOp.dedentOp,
      CGOp.indentOp, CGOp.indentOp] ⟨"\t", [], 0⟩ ⟨"\t", ["\ta"], 2⟩ (by decide) rfl,
   codeGenerator_indent_safety.2.2 ⟨"\t", [], 1⟩ "x"⟩

/-- C8: when `add_python_package` with `override = true` replaces an entry
whose name is already in the ledger, the ordered key list — and hence the
entry's line position in the rendered requirements output, which maps the
entries in order — is unchanged; only the stored constraints change. -/
theorem addPythonPackage_preserves_position :
    ∀ (pkgs : List (String × VersionedDependency)) (dep : VersionedDependency),
      (odLookup pkgs dep.name).isSome = true →
        (addPythonPackage pkgs dep true).map Prod.fst = pkgs.map Prod.fst
        ∧ odLookup (addPythonPackage pkgs dep true) dep.name = some dep := by
  intro pkgs dep h
  constructor
  · simp [addPythonPackage, odAssign_keys_present pkgs dep.name dep h]
  · simp [addPythonPackage, odAssign_lookup_self]

/-- C2: for a function whose return annotation is a named tuple of K
supported-scalar fields (and fully annotated parameters), entrypoint
synthesis succeeds; the CLI block consists of the argparse header, one
positional `add_argument` per input parameter in declared order, then the
output declaration `parser.add_argument("_output_files", type=str,
nargs=K)` — a single positional that consumes exactly K output-file
command-line arguments — and the driver tail; the wrapper body ends in the
`zip(_output_files, outputs)` write loop, whose denotation writes exactly K
files, file i receiving field i's value. -/
theorem funcToEntrypoint_namedTuple_outputs
    (f : PyFunc) (nm : String) (fields : List (String × PyTy))
    (hret : f.retAnn = some (PyTy.namedTupleTy nm fields))
    (hcount : f.args.length = f.annots.length)
    (hann : ∀ a ∈ f.args, (f.annots.lookup a).isSome = true)
    (hfields : ∀ p ∈ fields, p.2.isScalar = true) :
    funcToEntrypoint f "python3"
        = entrypointAssemble f "python3"
            (f.args.map (fun a => PyTy.pyName (annGetD f.annots a) ++ "(" ++ a ++ "),"))
            (f.args.map (fun a => inputArgLine a (annGetD f.annots a)))
    ∧ (∃ code, funcToEntrypoint f "python3" = Except.ok code)
    ∧ (if retIsNamedTuple f.retAnn then nargsOutputLine (retFieldsLen f.retAnn)
        else singleOutputLine) = nargsOutputLine fields.length
    ∧ (cliCG f.name (f.args.map (fun a => inputArgLine a (annGetD f.annots a)))
          (nargsOutputLine fields.length) (detectIndent f.srcLines)).code
        = ["import argparse", parserHeaderLine]
          ++ f.args.map (fun a => inputArgLine a (annGetD f.annots a))
          ++ [nargsOutputLine fields.length, "args = vars(parser.parse_args())", "",
              "if __name__ == \"__main__\":",
              detectIndent f.srcLines ++ "wrapper_" ++ f.name ++ "(**args)"]
    ∧ (∀ callLine : String,
        (wrapperCG f.name f.args true (detectIndent f.srcLines) callLine).code
          = [funcSignature f.name f.args true,
             strRepeat (detectIndent f.srcLines) 1 ++ callLine,
             strRepeat (detectIndent f.srcLines) 1 ++ "import os",
             strRepeat (detectIndent f.srcLines) 1
               ++ "for _output_file, output in zip(_output_files, outputs):",
             strRepeat (detectIndent f.srcLines) 2
               ++ "os.makedirs(os.path.dirname(_output_file))",
             strRepeat (detectIndent f.srcLines) 2
               ++ "with open(_output_file, \"w\") as data:",
             strRepeat (detectIndent f.srcLines) 3 ++ "data.write(str(output))"])
    ∧ (∀ files outs : List String,
        files.length = fields.length → outs.length = fields.length →
          (namedTupleWrites files outs).length = fields.length
          ∧ (namedTupleWrites files outs).map Prod.fst = files
          ∧ (namedTupleWrites files outs).map Prod.snd = outs) := by
  have hscal : scalarCheckFails f.retAnn = false := by
    rw [hret]; simp [scalarCheckFails, PyTy.hasFields]
  have hfield : fieldCheckFails f.retAnn = false := by
    rw [hret]
    simp only [fieldCheckFails, List.any_eq_false]
    intro p hp
    simp [hfields p hp]
  refine ⟨funcToEntrypoint_ok f "python3" (Or.inr rfl) hcount hscal hfield hann, ?_, ?_, ?_,
    fun callLine => wrapperCG_code_nt f.name f.args (detectIndent f.srcLines) callLine, ?_⟩
  · rw [funcToEntrypoint_ok f "python3" (Or.inr rfl) hcount hscal hfield hann]
    exact ⟨_, rfl⟩
  · rw [hret]; rfl
  · exact cliCG_code f.name _ (nargsOutputLine fields.length) (detectIndent f.srcLines)
  · intro files outs h1 h2
    refine ⟨?_, ?_, ?_⟩
    · simp [namedTupleWrites, h1, h2]
    · exact List.map_fst_zip files outs (by omega)
    · exact List.map_snd_zip files outs (by omega)

/-- C2 witness: on a concrete function returning a two-field named tuple,
synthesis succeeds, the output declaration consumes exactly two
command-line values, and the write-loop denotation writes exactly two
files, matched to the fields in order. -/
theorem funcToEntrypoint_namedTuple_outputs_witness :
    (∃ code, funcToEntrypoint exampleNTFunc "python3" = Except.ok code)
    ∧ (if retIsNamedTuple exampleNTFunc.retAnn
        then nargsOutputLine (retFieldsLen exampleNTFunc.retAnn)
        else singleOutputLine) = nargsOutputLine 2
    ∧ (namedTupleWrites ["/out/q", "/out/r"] ["3", "1"]).length = 2
    ∧ (namedTupleWrites ["/out/q", "/out/r"] ["3", "1"]).map Prod.snd = ["3", "1"] :=
  ⟨(funcToEntrypoint_namedTuple_outputs exampleNTFunc "MyOutput" exampleNTFields rfl rfl
      (by decide) (by decide)).2.1,
   (funcToEntrypoint_namedTuple_outputs exampleNTFunc "MyOutput" exampleNTFields rfl rfl
      (by decide) (by decide)).2.2.1,
   ((funcToEntrypoint_namedTuple_outputs exampleNTFunc "MyOutput" exampleNTFields rfl rfl
      (by decide) (by decide)).2.2.2.2.2 ["/out/q", "/out/r"] ["3", "1"] rfl rfl).1,
   ((funcToEntrypoint_namedTuple_outputs exampleNTFunc "MyOutput" exampleNTFields rfl rfl
      (by decide) (by decide)).2.2.2.2.2 ["/out/q", "/out/r"] ["3", "1"] rfl rfl).2.2⟩

/-- C3: entrypoint synthesis fails with
`Some input arguments do not contain annotations.` whenever the declared
parameter count differs from the annotated parameter count — regardless of
the return annotation, which shows the parameter check runs before the
return-type check — and fails with the unsupported-output-type error for
every function whose (present) return annotation is neither one of
`[int, float, str, bool]` nor a named tuple of such fields. -/
theorem funcToEntrypoint_validation_errors :
    (∀ (f : PyFunc) (pv : String), (pv = "python2" ∨ pv = "python3") →
      f.args.length ≠ f.annots.length →
      funcToEntrypoint f pv
        = Except.error "Some input arguments do not contain annotations.")
    ∧ (∀ (f : PyFunc) (pv : String), (pv = "python2" ∨ pv = "python3") →
      f.args.length = f.annots.length →
      unsupportedRet f.retAnn = true →
      funcToEntrypoint f pv = Except.error outputTypeErr) := by
  constructor
  · intro f pv hpv hne
    simp only [funcToEntrypoint]
    rw [if_neg (not_not_intro hpv), if_pos hne]
  · intro f pv hpv hcount hun
    simp only [funcToEntrypoint]
    rw [if_neg (not_not_intro hpv), if_neg (fun hne => hne hcount)]
    cases hr : f.retAnn with
    | none => rw [hr] at hun; simp [unsupportedRet] at hun
    | some t =>
      rw [hr] at hun
      cases t with
      | intTy => simp [unsupportedRet, PyTy.isScalar] at hun
      | floatTy => simp [unsupportedRet, PyTy.isScalar] at hun
      | strTy => simp [unsupportedRet, PyTy.isScalar] at hun
      | boolTy => simp [unsupportedRet, PyTy.isScalar] at hun
      | namedTupleTy nm fs =>
        have h2 : fieldCheckFails (some (PyTy.namedTupleTy nm fs)) = true := hun
        rw [if_neg (by simp [show scalarCheckFails (some (PyTy.namedTupleTy nm fs)) = false
              from rfl]),
          if_pos (by simp [h2])]
      | otherTy nm =>
        rw [if_pos (by simp [show scalarCheckFails (some (PyTy.otherTy nm)) = true from rfl])]

/-- C3 witness: a function with an unannotated second parameter fails with
the parameter message; a function returning `dict` fails with the
output-type message; a function violating both fails with the parameter
message, showing the check order. -/
theorem funcToEntrypoint_validation_errors_witness :
    funcToEntrypoint exampleMissingAnnFunc "python3"
      = Except.error "Some input arguments do not contain annotations."
    ∧ funcToEntrypoint exampleBadRetFunc "python3" = Except.error outputTypeErr
    ∧ funcToEntrypoint exampleBothBadFunc "python3"
      = Except.error "Some input arguments do not contain annotations." :=
  ⟨funcToEntrypoint_validation_errors.1 exampleMissingAnnFunc "python3" (Or.inr rfl)
      (by decide),
   funcToEntrypoint_validation_errors.2 exampleBadRetFunc "python3" (Or.inr rfl) rfl
      (by decide),
   funcToEntrypoint_validation_errors.1 exampleBothBadFunc "python3" (Or.inr rfl)
      (by decide)⟩

/-- C9: a function with no return annotation (and fully annotated
parameters) passes validation — synthesis succeeds — and is treated as a
single-output function: the CLI block declares exactly the one output-file
positional `parser.add_argument("_output_file", type=str)` after the
per-parameter arguments, and the component descriptor declares exactly one
output, named `output`. -/
theorem funcToEntrypoint_no_return_single_output
    (f : PyFunc)
    (hret : f.retAnn = none)
    (hcount : f.args.length = f.annots.length)
    (hann : ∀ a ∈ f.args, (f.annots.lookup a).isSome = true) :
    funcToEntrypoint f "python3"
        = entrypointAssemble f "python3"
            (f.args.map (fun a => PyTy.pyName (annGetD f.annots a) ++ "(" ++ a ++ "),"))
            (f.args.map (fun a => inputArgLine a (annGetD f.annots a)))
    ∧ (∃ code, funcToEntrypoint f "python3" = Except.ok code)
    ∧ (if retIsNamedTuple f.retAnn then nargsOutputLine (retFieldsLen f.retAnn)
        else singleOutputLine) = singleOutputLine
    ∧ (cliCG f.name (f.args.map (fun a => inputArgLine a (annGetD f.annots a)))
          singleOutputLine (detectIndent f.srcLines)).code
        = ["import argparse", parserHeaderLine]
          ++ f.args.map (fun a => inputArgLine a (annGetD f.annots a))
          ++ [singleOutputLine, "args = vars(parser.parse_args())", "",
              "if __name__ == \"__main__\":",
              detectIndent f.srcLines ++ "wrapper_" ++ f.name ++ "(**args)"]
    ∧ (∀ (img : String) (tcf : Option String),
        (generatePythonop f img tcf).2.csOutputs = [⟨"output", "str"⟩]) := by
  have hscal : scalarCheckFails f.retAnn = false := by rw [hret]; rfl
  have hfield : fieldCheckFails f.retAnn = false := by rw [hret]; rfl
  refine ⟨funcToEntrypoint_ok f "python3" (Or.inr rfl) hcount hscal hfield hann, ?_, ?_, ?_, ?_⟩
  · rw [funcToEntrypoint_ok f "python3" (Or.inr rfl) hcount hscal hfield hann]
    exact ⟨_, rfl⟩
  · rw [hret]; rfl
  · exact cliCG_code f.name _ singleOutputLine (detectIndent f.srcLines)
  · intro img tcf
    simp [generatePythonop, outputNamesOf, hret]

/-- C9 witness: the concrete annotation-free-return function synthesizes
successfully, gets the single `_output_file` declaration, and its
descriptor has the single output `output`. -/
theorem funcToEntrypoint_no_return_single_output_witness :
    (∃ code, funcToEntrypoint exampleNoRetFunc "python3" = Except.ok code)
    ∧ (if retIsNamedTuple exampleNoRetFunc.retAnn
        then nargsOutputLine (retFieldsLen exampleNoRetFunc.retAnn)
        else singleOutputLine) = singleOutputLine
    ∧ (generatePythonop exampleNoRetFunc "gcr.io/proj/emit:v1" none).2.csOutputs
        = [⟨"output", "str"⟩] :=
  ⟨(funcToEntrypoint_no_return_single_output exampleNoRetFunc rfl rfl (by decide)).2.1,
   (funcToEntrypoint_no_return_single_output exampleNoRetFunc rfl rfl (by decide)).2.2.1,
   (funcToEntrypoint_no_return_single_output exampleNoRetFunc rfl rfl
      (by decide)).2.2.2.2 "gcr.io/proj/emit:v1" none⟩

/-- C10: calling `build_python_component` with `build_image = False` and a
valid runtime variant succeeds without a staging path or base image (their
checks sit inside the build branch and are never reached), performs no
build-side effect — the only possible event is the descriptor-file write —
and still returns the task factory built from the function's and target
image's component spec. -/
theorem buildPythonComponent_no_build
    (f : PyFunc) (img pv : String) (tcf : Option String) (tar : String)
    (up job : Except String Unit)
    (hpv : pv = "python2" ∨ pv = "python3") :
    buildPythonComponent (some f) (some img) none none false pv tcf tar up job
      = Except.ok (generatePythonop f img tcf)
    ∧ (generatePythonop f img tcf).1.all (fun e => !isBuildEffect e) = true
    ∧ (generatePythonop f img tcf).2.csImage = img := by
  refine ⟨?_, ?_, rfl⟩
  · simp only [buildPythonComponent]
    rw [if_neg (not_not_intro hpv)]
    rfl
  · cases tcf with
    | some p => simp [generatePythonop, isBuildEffect]
    | none =>
      cases hc : f.componentFileAttr with
      | some p => simp [generatePythonop, isBuildEffect, hc]
      | none => simp [generatePythonop, isBuildEffect, hc]

/-- C10 witness: the concrete no-build call returns the factory spec with
no staging path, no base image, and no build event. -/
theorem buildPythonComponent_no_build_witness :
    buildPythonComponent (some exampleNoRetFunc) (some "gcr.io/proj/emit:v1") none none
        false "python3" none "u.tar.gz" (Except.ok ()) (Except.ok ())
      = Except.ok (generatePythonop exampleNoRetFunc "gcr.io/proj/emit:v1" none)
    ∧ (generatePythonop exampleNoRetFunc "gcr.io/proj/emit:v1" none).1.all
        (fun e => !isBuildEffect e) = true :=
  ⟨(buildPythonComponent_no_build exampleNoRetFunc "gcr.io/proj/emit:v1" "python3" none
      "u.tar.gz" (Except.ok ()) (Except.ok ()) (Or.inr rfl)).1,
   (buildPythonComponent_no_build exampleNoRetFunc "gcr.io/proj/emit:v1" "python3" none
      "u.tar.gz" (Except.ok ()) (Except.ok ()) (Or.inr rfl)).2.1⟩

/-- C8 witness: overriding the first of two entries keeps it first. -/
theorem addPythonPackage_preserves_position_witness :
    (addPythonPackage [("numpy", ⟨"numpy", some "1.0", none⟩), ("scipy", ⟨"scipy", none, none⟩)]
        ⟨"numpy", some "2.0", some "2.0"⟩ true).map Prod.fst = ["numpy", "scipy"]
    ∧ odLookup (addPythonPackage
        [("numpy", ⟨"numpy", some "1.0", none⟩), ("scipy", ⟨"scipy", none, none⟩)]
        ⟨"numpy", some "2.0", some "2.0"⟩ true) "numpy" = some ⟨"numpy", some "2.0", some "2.0"⟩ :=
  addPythonPackage_preserves_position
    [("numpy", ⟨"numpy", some "1.0", none⟩), ("scipy", ⟨"scipy", none, none⟩)]
    ⟨"numpy", some "2.0", some "2.0"⟩ (by decide)

end ComponentBuilder
